import Mathlib

/-!
Verification development for the pulp-smash pytest plugin
(`pulp_smash/pulp3/pytest_plugin/__init__.py`).

The impure parts of the plugin (HTTP clients, the service manager, the
status API client) are modelled as oracles passed in as function arguments;
Python exceptions are modelled with `Except`.  Side-effecting calls
(deleting an object, monitoring a task, setting a shutdown event, joining
a thread, sleeping, reading the status endpoint) are recorded as explicit
events so that ordering claims can be stated about the produced traces.
-/

/-- Model of the `ThreadedAiohttpServerData` class: host, port, ids standing
for the shutdown event and the thread handle, the optional TLS context
(`ssl_ctx`), and the call record. -/
structure ThreadedAiohttpServerData where
  host : String
  port : Nat
  shutdown_event : Nat
  thread : Nat
  ssl_ctx : Option Nat
  requests_record : List String
deriving DecidableEq

/-- The two ways `make_url` can raise: `ValueError` (explicitly raised when
the first character of the path is not a slash) and `IndexError` (raised by
the subscript `path[0]` when the path is empty). -/
inductive UrlError where
  | valueError (msg : String)
  | indexError
deriving DecidableEq

/-- Model of `ThreadedAiohttpServerData.make_url`.  The Python body first
evaluates `path[0]` (an `IndexError` on the empty string), compares it with
a slash (raising `ValueError` on mismatch), then picks the protocol from
`self.ssl_ctx` and builds the f-string
`f"{protocol_handler}{self.host}:{self.port}{path}"`. -/
def make_url (self : ThreadedAiohttpServerData) (path : String) :
    Except UrlError String :=
  match path.data with
  | [] => Except.error UrlError.indexError
  | c :: _ =>
    if c ≠ '/' then
      Except.error (UrlError.valueError "The `path` argument should start with a '/'")
    else
      let protocol_handler :=
        match self.ssl_ctx with
        | none => "http://"
        | some _ => "https://"
      Except.ok (protocol_handler ++ self.host ++ ":" ++ toString self.port ++ path)

/-- Whether a `make_url` outcome is a `ValueError` failure. -/
def is_value_error {α : Type} : Except UrlError α → Bool
  | Except.error (UrlError.valueError _) => true
  | _ => false

/-- A concrete server handle without a TLS context, used as a test vehicle. -/
def sample_server_data : ThreadedAiohttpServerData :=
  { host := "127.0.0.1", port := 8080, shutdown_event := 0, thread := 0,
    ssl_ctx := none, requests_record := [] }

/-- A concrete server handle with a TLS context present. -/
def sample_tls_server_data : ThreadedAiohttpServerData :=
  { host := "127.0.0.1", port := 8443, shutdown_event := 1, thread := 1,
    ssl_ctx := some 7, requests_record := [] }

/-- A cleanup registration made through `_add_to_cleanup`: the pair
`(api_client, pulp_href)` appended to `obj_refs`.  The client is modelled by
an id. -/
structure CleanupEntry where
  api_client : Nat
  pulp_href : String
deriving DecidableEq

/-- Observable side effects of the cleanup teardown: a call
`api_client.delete(pulp_href)` for an entry, and a call
`monitor_task(deleted_task_href)` for a collected task href. -/
inductive CleanupEvent where
  | deleteCall (entry : CleanupEntry)
  | monitorCall (task_href : String)
deriving DecidableEq

/-- Outcome of `api_client.delete(pulp_href).task` for an entry: either the
task href of the delete task, or an exception (any exception raised by the
delete call or by the `.task` attribute access). -/
def DeleteOracle : Type := CleanupEntry → Except Unit String

/-- The task href of a successful delete call, `none` when it raised. -/
def task_of : Except Unit String → Option String
  | Except.ok task_url => some task_url
  | Except.error _ => none

/-- The first teardown loop of the `add_to_cleanup` fixture, run on the
already-reversed `obj_refs` list: for each entry it calls delete (recorded
as a `deleteCall` event); a successful call appends the task href to
`delete_task_hrefs`, and any exception is swallowed (`except Exception:
pass`).  Returns the events and the collected `delete_task_hrefs`. -/
def cleanup_delete_phase (delete : DeleteOracle) :
    List CleanupEntry → List CleanupEvent × List String
  | [] => ([], [])
  | entry :: rest =>
    let step :=
      match delete entry with
      | Except.ok task_url => [task_url]
      | Except.error _ => []
    let r := cleanup_delete_phase delete rest
    (CleanupEvent.deleteCall entry :: r.1, step ++ r.2)

/-- The teardown phase of the `add_to_cleanup` fixture: iterate over
`reversed(obj_refs)` attempting each deletion, then call `monitor_task` on
every collected delete-task href.  Returns the full event trace. -/
def add_to_cleanup_teardown (delete : DeleteOracle)
    (obj_refs : List CleanupEntry) : List CleanupEvent :=
  let r := cleanup_delete_phase delete obj_refs.reverse
  r.1 ++ r.2.map CleanupEvent.monitorCall

/-- One iteration of the teardown loop with the exception semantics made
explicit: the body `task_url = api_client.delete(pulp_href).task;
delete_task_hrefs.append(task_url)` runs under `try`, and the bare
`except Exception: pass` handler catches every exception. -/
def try_delete (delete : DeleteOracle) (entry : CleanupEntry) :
    Except Unit (List String) :=
  tryCatch
    (do
      let task_url ← delete entry
      pure [task_url])
    (fun _ => pure [])

/-- The delete phase written in the exception monad, used to state that the
teardown itself never raises. -/
def cleanup_delete_phaseE (delete : DeleteOracle) :
    List CleanupEntry → Except Unit (List CleanupEvent × List String)
  | [] => pure ([], [])
  | entry :: rest => do
    let step ← try_delete delete entry
    let r ← cleanup_delete_phaseE delete rest
    pure (CleanupEvent.deleteCall entry :: r.1, step ++ r.2)

/-- The full teardown in the exception monad. -/
def add_to_cleanup_teardownE (delete : DeleteOracle)
    (obj_refs : List CleanupEntry) : Except Unit (List CleanupEvent) := do
  let r ← cleanup_delete_phaseE delete obj_refs.reverse
  pure (r.1 ++ r.2.map CleanupEvent.monitorCall)

/-- The entry a trace event deletes, if it is a delete call. -/
def delete_target : CleanupEvent → Option CleanupEntry
  | CleanupEvent.deleteCall entry => some entry
  | CleanupEvent.monitorCall _ => none

/-- The task href a trace event monitors, if it is a monitor call. -/
def monitor_target : CleanupEvent → Option String
  | CleanupEvent.deleteCall _ => none
  | CleanupEvent.monitorCall task_href => some task_href

/-- Concrete cleanup entries for test vehicles. -/
def ent_a : CleanupEntry := { api_client := 0, pulp_href := "/pulp/a/" }

def ent_b : CleanupEntry := { api_client := 0, pulp_href := "/pulp/b/" }

def ent_c : CleanupEntry := { api_client := 1, pulp_href := "/pulp/c/" }

/-- A delete oracle under which every deletion raises. -/
def delete_all_fail : DeleteOracle := fun _ => Except.error ()

/-- A delete oracle under which deleting `ent_b` raises and the others
return delete tasks. -/
def delete_b_fails : DeleteOracle := fun entry =>
  if entry = ent_b then Except.error ()
  else Except.ok ("/tasks" ++ entry.pulp_href)

/-- A remote object as returned by `api_client.read`, carrying its
`pulp_href`. -/
structure PulpObject where
  pulp_href : String
deriving DecidableEq

/-- The task data returned by `monitor_task`, carrying the task's
`created_resources` list. -/
structure TaskData where
  created_resources : List String
deriving DecidableEq

/-- The textual form of task data, as interpolated into the error message
`f"No appropriate created_resource could be found in task data {task_data}"`. -/
def task_data_str (task_data : TaskData) : String :=
  "TaskData(created_resources=" ++ toString task_data.created_resources ++ ")"

/-- The value returned by `api_client.create`: either an object exposing
`pulp_href`, or a task handle exposing `.task` (accessing `pulp_href` on the
latter raises `AttributeError`). -/
inductive CreatedValue where
  | obj (new_obj : PulpObject)
  | task (task_href : String)
deriving DecidableEq

/-- The `for created_resource in task_data.created_resources` loop of
`_gen_object_with_cleanup`: try `api_client.read(created_resource)`; on any
exception continue (`pass`), otherwise register the read object for cleanup
and return it.  When the loop exhausts the list, raise the descriptive
`TypeError`.  The result pairs the returned object with the list of
`pulp_href`s registered for cleanup. -/
def gen_cleanup_loop (read : String → Except Unit PulpObject)
    (task_data : TaskData) :
    List String → Except String (PulpObject × List String)
  | [] =>
    Except.error
      ("No appropriate created_resource could be found in task data " ++
        task_data_str task_data)
  | created_resource :: rest =>
    match read created_resource with
    | Except.error _ => gen_cleanup_loop read task_data rest
    | Except.ok new_obj => Except.ok (new_obj, [new_obj.pulp_href])

/-- Model of `_gen_object_with_cleanup` after the `api_client.create` call
returned `create_result`.  When the created value has a `pulp_href`, it is
registered for cleanup and returned.  When it is a task (so
`new_obj.pulp_href` raised `AttributeError`), the task is monitored and its
`created_resources` are scanned by `gen_cleanup_loop`.  `read` models
`api_client.read` and `monitor` models `monitor_task`. -/
def gen_object_with_cleanup (read : String → Except Unit PulpObject)
    (monitor : String → TaskData) (create_result : CreatedValue) :
    Except String (PulpObject × List String) :=
  match create_result with
  | CreatedValue.obj new_obj => Except.ok (new_obj, [new_obj.pulp_href])
  | CreatedValue.task task_href =>
    let task_data := monitor task_href
    gen_cleanup_loop read task_data task_data.created_resources

/-- A concrete read oracle: only the resource `"/res/good/"` is readable. -/
def sample_read : String → Except Unit PulpObject := fun created_resource =>
  if created_resource = "/res/good/" then
    Except.ok { pulp_href := "/res/good/" }
  else Except.error ()

/-- A concrete monitor oracle: the task reports two created resources, the
second of which is the readable one. -/
def sample_monitor : String → TaskData := fun _ =>
  { created_resources := ["/res/other/", "/res/good/"] }

/-- A concrete monitor oracle reporting only unreadable resources. -/
def sample_monitor_bad : String → TaskData := fun _ =>
  { created_resources := ["/res/x/", "/res/y/"] }

/-- The fields of the status object looked at by the polling fixtures:
`len(status.online_workers)`, `len(status.online_content_apps)` and
`status.database_connection.connected`. -/
structure StatusInfo where
  online_workers : Nat
  online_content_apps : Nat
  database_connected : Bool
deriving DecidableEq

/-- The exception types raised by the status client and caught by the
polling fixtures: `urllib3.exceptions.MaxRetryError` (a connection failure)
and `ApiException` (the specific API error). -/
inductive StatusReadError where
  | maxRetryError
  | apiException
deriving DecidableEq

/-- Observable steps of one polling loop: a `time.sleep(secs)` call and the
status read of a given attempt. -/
inductive ServiceEvent where
  | sleep (secs : Nat)
  | status_read (attempt : Nat)
deriving DecidableEq

/-- Whether a polling event is a status read. -/
def is_read_event : ServiceEvent → Bool
  | ServiceEvent.status_read _ => true
  | ServiceEvent.sleep _ => false

/-- The readiness condition checked by `_start_and_check_services`:
`http_code == 200 and len(status.online_workers) > 0 and
len(status.online_content_apps) > 0 and status.database_connection.connected`. -/
def start_ready (status : StatusInfo) (http_code : Nat) : Bool :=
  http_code == 200 && decide (0 < status.online_workers) &&
    decide (0 < status.online_content_apps) && status.database_connected

/-- The polling loop of `_start_and_check_services`, with `attempt` the next
value of the loop variable `i` and `remaining` the iterations left of
`range(10)`.  Each iteration sleeps 3 seconds and reads the status; a read
that raises is caught and retried (`continue`), a read whose result is not
ready also retries, and a ready result returns `True`.  The trace of sleeps
and reads is returned alongside the boolean. -/
def start_check_loop (poll : Nat → Except StatusReadError (StatusInfo × Nat)) :
    Nat → Nat → Bool × List ServiceEvent
  | _, 0 => (false, [])
  | attempt, remaining + 1 =>
    let evs := [ServiceEvent.sleep 3, ServiceEvent.status_read attempt]
    match poll attempt with
    | Except.error _ =>
      let r := start_check_loop poll (attempt + 1) remaining
      (r.1, evs ++ r.2)
    | Except.ok (status, http_code) =>
      if start_ready status http_code then (true, evs)
      else
        let r := start_check_loop poll (attempt + 1) remaining
        (r.1, evs ++ r.2)

/-- Model of `_start_and_check_services`: poll the status endpoint up to 10
times.  `poll attempt` gives the outcome of
`status_api_client.status_read_with_http_info()` at that attempt: the pair
`(status, http_code)` or one of the caught exceptions. -/
def start_and_check_services
    (poll : Nat → Except StatusReadError (StatusInfo × Nat)) :
    Bool × List ServiceEvent :=
  start_check_loop poll 0 10

/-- Whether the status read of an attempt succeeds with a ready result. -/
def poll_ready (poll : Nat → Except StatusReadError (StatusInfo × Nat))
    (attempt : Nat) : Bool :=
  match poll attempt with
  | Except.ok (status, http_code) => start_ready status http_code
  | Except.error _ => false

/-- The polling loop of `_stop_and_check_services`: each iteration sleeps 3
seconds and calls `status_api_client.status_read()`; a read that raises one
of the caught exceptions returns `True` immediately, a successful read falls
through to the next iteration. -/
def stop_check_loop (poll : Nat → Except StatusReadError Unit) :
    Nat → Nat → Bool × List ServiceEvent
  | _, 0 => (false, [])
  | attempt, remaining + 1 =>
    let evs := [ServiceEvent.sleep 3, ServiceEvent.status_read attempt]
    match poll attempt with
    | Except.error _ => (true, evs)
    | Except.ok _ =>
      let r := stop_check_loop poll (attempt + 1) remaining
      (r.1, evs ++ r.2)

/-- Model of `_stop_and_check_services`: poll the status endpoint up to 10
times, treating a failed read as confirmation the services are down. -/
def stop_and_check_services (poll : Nat → Except StatusReadError Unit) :
    Bool × List ServiceEvent :=
  stop_check_loop poll 0 10

/-- The trace produced by `remaining` full polling iterations starting at
attempt `attempt`: each iteration is a 3-second sleep followed by one status
read. -/
def full_poll_trace : Nat → Nat → List ServiceEvent
  | _, 0 => []
  | attempt, remaining + 1 =>
    ServiceEvent.sleep 3 :: ServiceEvent.status_read attempt ::
      full_poll_trace (attempt + 1) remaining

/-- A poll oracle under which the API never becomes ready: every read
raises a connection failure. -/
def poll_never_up : Nat → Except StatusReadError (StatusInfo × Nat) :=
  fun _ => Except.error StatusReadError.maxRetryError

/-- A poll oracle that reports a fully ready status from attempt 2 on. -/
def poll_up_at_two : Nat → Except StatusReadError (StatusInfo × Nat) :=
  fun attempt =>
    if attempt < 2 then Except.error StatusReadError.maxRetryError
    else
      Except.ok
        ({ online_workers := 2, online_content_apps := 1,
           database_connected := true }, 200)

/-- A poll oracle under which the status endpoint keeps answering: the
services never look stopped. -/
def poll_never_down : Nat → Except StatusReadError Unit := fun _ =>
  Except.ok ()

/-- A poll oracle whose reads succeed until attempt 3 and fail with an
`ApiException` from then on. -/
def poll_down_at_three : Nat → Except StatusReadError Unit := fun attempt =>
  if attempt < 3 then Except.ok ()
  else Except.error StatusReadError.apiException

/-- Observable steps of the `gen_threaded_aiohttp_server` fixture teardown,
acting on servers identified by their position-independent ids:
`fixture_server_data.shutdown_event.set()` and
`fixture_server_data.thread.join()`. -/
inductive ServerTeardownEvent where
  | set_shutdown_event (server : Nat)
  | join_thread (server : Nat)
deriving DecidableEq

/-- Model of the teardown of `gen_threaded_aiohttp_server`: a first loop
sets every registered server's shutdown event in registration order, then a
second loop joins every server's thread in registration order.
`fixture_servers_data` lists the servers in registration (append) order. -/
def gen_threaded_aiohttp_server_teardown (fixture_servers_data : List Nat) :
    List ServerTeardownEvent :=
  fixture_servers_data.map ServerTeardownEvent.set_shutdown_event ++
    fixture_servers_data.map ServerTeardownEvent.join_thread

/-- The server whose shutdown event a teardown event sets, if any. -/
def set_event_target : ServerTeardownEvent → Option Nat
  | ServerTeardownEvent.set_shutdown_event server => some server
  | ServerTeardownEvent.join_thread _ => none

/-- The server whose thread a teardown event joins, if any. -/
def join_target : ServerTeardownEvent → Option Nat
  | ServerTeardownEvent.set_shutdown_event _ => none
  | ServerTeardownEvent.join_thread server => some server

/-- Whether a teardown event sets a shutdown event. -/
def is_set_event (ev : ServerTeardownEvent) : Bool :=
  (set_event_target ev).isSome

/-- Whether a teardown event joins a thread. -/
def is_join_event (ev : ServerTeardownEvent) : Bool :=
  (join_target ev).isSome

/-- Whether a fallible call returned normally (did not raise). -/
def except_ok {ε α : Type} : Except ε α → Bool
  | Except.ok _ => true
  | Except.error _ => false

/-! ## Theorems -/

/-- Claim C10: `make_url` called with the empty string fails with an
`IndexError` (from the subscript `path[0]`) rather than a `ValueError`: the
path check is a partial indexing operation, not a prefix test, so the empty
path is an unguarded edge case. -/
theorem make_url_empty_path_index_error (d : ThreadedAiohttpServerData) :
    make_url d "" = Except.error UrlError.indexError ∧
      is_value_error (make_url d "") = false :=
  ⟨rfl, rfl⟩

/-- Claim C7, counterexample: the empty path does not start with "/" and yet
`make_url` fails on it with an `IndexError`, not a `ValueError`. -/
theorem make_url_empty_counterexample :
    make_url sample_server_data "" = Except.error UrlError.indexError ∧
      is_value_error (make_url sample_server_data "") = false :=
  ⟨rfl, rfl⟩

/-- Claim C7 (amended): for every nonempty path whose first character is not
a slash, `make_url` fails immediately with a `ValueError`. -/
theorem make_url_bad_path_value_error (d : ThreadedAiohttpServerData)
    (path : String) (c : Char) (h1 : path.data.head? = some c)
    (h2 : c ≠ '/') :
    make_url d path =
      Except.error
        (UrlError.valueError "The `path` argument should start with a '/'") := by
  match hp : path.data with
  | [] => simp [hp] at h1
  | b :: bs =>
    rw [hp] at h1
    simp only [List.head?_cons, Option.some.injEq] at h1
    subst h1
    simp [make_url, hp, h2]

/-- Witness for the amended claim C7 at the concrete path "pulp". -/
theorem make_url_bad_path_value_error_witness :
    make_url sample_server_data "pulp" =
      Except.error
        (UrlError.valueError "The `path` argument should start with a '/'") :=
  make_url_bad_path_value_error sample_server_data "pulp" 'p' rfl (by decide)

/-- Claim C8: for every path starting with "/", `make_url` returns a URL
whose scheme is "https://" when the handle's TLS context is present and
"http://" when it is absent, followed by exactly the handle's host, a colon,
the handle's port, and the path. -/
theorem make_url_good_path_spec (d : ThreadedAiohttpServerData)
    (path : String) (h : path.data.head? = some '/') :
    make_url d path =
      Except.ok
        ((if d.ssl_ctx.isSome then "https://" else "http://") ++
          d.host ++ ":" ++ toString d.port ++ path) := by
  match hp : path.data with
  | [] => simp [hp] at h
  | b :: bs =>
    rw [hp] at h
    simp only [List.head?_cons, Option.some.injEq] at h
    subst h
    cases hs : d.ssl_ctx <;> simp [make_url, hp, hs]

/-- Witness for claim C8 at a TLS handle and a plain handle. -/
theorem make_url_good_path_spec_witness :
    make_url sample_tls_server_data "/pulp/" =
      Except.ok
        ((if sample_tls_server_data.ssl_ctx.isSome then "https://" else "http://") ++
          sample_tls_server_data.host ++ ":" ++
          toString sample_tls_server_data.port ++ "/pulp/") ∧
    make_url sample_server_data "/pulp/" =
      Except.ok
        ((if sample_server_data.ssl_ctx.isSome then "https://" else "http://") ++
          sample_server_data.host ++ ":" ++
          toString sample_server_data.port ++ "/pulp/") :=
  ⟨make_url_good_path_spec sample_tls_server_data "/pulp/" rfl,
   make_url_good_path_spec sample_server_data "/pulp/" rfl⟩

/-- Closed form of the delete phase: one delete call per entry in list
order, collecting the task hrefs of the successful calls in order. -/
theorem cleanup_delete_phase_eq (delete : DeleteOracle)
    (l : List CleanupEntry) :
    cleanup_delete_phase delete l =
      (l.map CleanupEvent.deleteCall,
        l.filterMap (fun entry => task_of (delete entry))) := by
  induction l with
  | nil => rfl
  | cons entry rest ih =>
    simp only [cleanup_delete_phase, ih, List.map_cons, List.filterMap_cons]
    cases h : delete entry <;> simp [task_of, h]

/-- Closed form of the whole teardown trace: the delete calls on the
reversed registration list, followed by the monitor calls on the collected
task hrefs. -/
theorem add_to_cleanup_teardown_eq (delete : DeleteOracle)
    (obj_refs : List CleanupEntry) :
    add_to_cleanup_teardown delete obj_refs =
      obj_refs.reverse.map CleanupEvent.deleteCall ++
        (obj_refs.reverse.filterMap
          (fun entry => task_of (delete entry))).map CleanupEvent.monitorCall := by
  simp [add_to_cleanup_teardown, cleanup_delete_phase_eq]

theorem filterMap_delete_target_map_delete (l : List CleanupEntry) :
    (l.map CleanupEvent.deleteCall).filterMap delete_target = l := by
  induction l with
  | nil => rfl
  | cons entry rest ih => simp [List.filterMap_cons, delete_target, ih]

theorem filterMap_delete_target_map_monitor (l : List String) :
    (l.map CleanupEvent.monitorCall).filterMap delete_target = [] := by
  induction l with
  | nil => rfl
  | cons task_href rest ih => simp [List.filterMap_cons, delete_target, ih]

theorem filterMap_monitor_target_map_delete (l : List CleanupEntry) :
    (l.map CleanupEvent.deleteCall).filterMap monitor_target = [] := by
  induction l with
  | nil => rfl
  | cons entry rest ih => simp [List.filterMap_cons, monitor_target, ih]

theorem filterMap_monitor_target_map_monitor (l : List String) :
    (l.map CleanupEvent.monitorCall).filterMap monitor_target = l := by
  induction l with
  | nil => rfl
  | cons task_href rest ih => simp [List.filterMap_cons, monitor_target, ih]

/-- Claim C1: the cleanup teardown attempts deletion of each registered
entry exactly once, in strict reverse-insertion order: the sequence of
delete calls in the teardown trace is exactly the reversed registration
list. -/
theorem cleanup_deletes_reverse_order (delete : DeleteOracle)
    (obj_refs : List CleanupEntry) :
    (add_to_cleanup_teardown delete obj_refs).filterMap delete_target =
      obj_refs.reverse := by
  rw [add_to_cleanup_teardown_eq, List.filterMap_append,
    filterMap_delete_target_map_delete, filterMap_delete_target_map_monitor,
    List.append_nil]

/-- The exception-monad delete phase never raises: it returns exactly the
pure delete phase. -/
theorem cleanup_delete_phaseE_ok (delete : DeleteOracle)
    (l : List CleanupEntry) :
    cleanup_delete_phaseE delete l =
      Except.ok (cleanup_delete_phase delete l) := by
  induction l with
  | nil => rfl
  | cons entry rest ih =>
    simp only [cleanup_delete_phaseE, cleanup_delete_phase, try_delete, ih]
    cases h : delete entry <;>
      simp [h, tryCatch, tryCatchThe, MonadExceptOf.tryCatch, Except.tryCatch,
        Bind.bind, Except.bind, Pure.pure, Except.pure]

/-- Claim C2: during cleanup teardown every deletion exception is swallowed
for that entry alone: the teardown as a whole never raises (the
exception-monad version always returns `ok`), and whatever the delete
outcomes, every registered entry still has its deletion attempted. -/
theorem cleanup_errors_swallowed (delete : DeleteOracle)
    (obj_refs : List CleanupEntry) :
    add_to_cleanup_teardownE delete obj_refs =
        Except.ok (add_to_cleanup_teardown delete obj_refs) ∧
      ∀ entry, entry ∈ obj_refs →
        CleanupEvent.deleteCall entry ∈ add_to_cleanup_teardown delete obj_refs := by
  constructor
  · simp [add_to_cleanup_teardownE, add_to_cleanup_teardown,
      cleanup_delete_phaseE_ok, Bind.bind, Except.bind, Pure.pure, Except.pure]
  · intro entry hmem
    rw [add_to_cleanup_teardown_eq]
    simp [hmem]

/-- Witness for claim C2: with a delete oracle under which every deletion
raises, the teardown still returns without error and still attempts the
first registered entry. -/
theorem cleanup_errors_swallowed_witness :
    add_to_cleanup_teardownE delete_all_fail [ent_a, ent_b] =
        Except.ok (add_to_cleanup_teardown delete_all_fail [ent_a, ent_b]) ∧
      CleanupEvent.deleteCall ent_a ∈
        add_to_cleanup_teardown delete_all_fail [ent_a, ent_b] :=
  ⟨(cleanup_errors_swallowed delete_all_fail [ent_a, ent_b]).1,
   (cleanup_errors_swallowed delete_all_fail [ent_a, ent_b]).2 ent_a
     (by simp)⟩

/-- Claim C3: every deletion that succeeds with a task reference has that
reference collected — the monitor calls of the teardown are exactly the
task hrefs of the successful deletions, in order — and the teardown trace
ends with those monitor calls after all delete calls, so every collected
task is waited on before the teardown returns. -/
theorem cleanup_monitors_collected_tasks (delete : DeleteOracle)
    (obj_refs : List CleanupEntry) :
    (add_to_cleanup_teardown delete obj_refs).filterMap monitor_target =
        obj_refs.reverse.filterMap (fun entry => task_of (delete entry)) ∧
      add_to_cleanup_teardown delete obj_refs =
        obj_refs.reverse.map CleanupEvent.deleteCall ++
          (obj_refs.reverse.filterMap
            (fun entry => task_of (delete entry))).map CleanupEvent.monitorCall := by
  refine ⟨?_, add_to_cleanup_teardown_eq delete obj_refs⟩
  rw [add_to_cleanup_teardown_eq, List.filterMap_append,
    filterMap_monitor_target_map_delete, filterMap_monitor_target_map_monitor,
    List.nil_append]

/-- When no created resource is readable, the scan loop of
`_gen_object_with_cleanup` exhausts the list and raises the descriptive
`TypeError`. -/
theorem gen_cleanup_loop_all_fail (read : String → Except Unit PulpObject)
    (task_data : TaskData) (rs : List String)
    (h : ∀ r ∈ rs, except_ok (read r) = false) :
    gen_cleanup_loop read task_data rs =
      Except.error
        ("No appropriate created_resource could be found in task data " ++
          task_data_str task_data) := by
  induction rs with
  | nil => rfl
  | cons r rest ih =>
    have hr := h r (by simp)
    cases hcase : read r with
    | ok new_obj => rw [hcase] at hr; simp [except_ok] at hr
    | error e =>
      simp only [gen_cleanup_loop, hcase]
      exact ih (fun x hx => h x (by simp [hx]))

/-- The scan loop returns the object of the first readable created
resource, registering exactly that object for cleanup. -/
theorem gen_cleanup_loop_first_readable
    (read : String → Except Unit PulpObject) (task_data : TaskData)
    (rs : List String) (i : Nat) (hi : i < rs.length)
    (hbefore : ∀ j, (hj : j < rs.length) → j < i →
      except_ok (read (rs.get ⟨j, hj⟩)) = false)
    (new_obj : PulpObject) (hok : read (rs.get ⟨i, hi⟩) = Except.ok new_obj) :
    gen_cleanup_loop read task_data rs =
      Except.ok (new_obj, [new_obj.pulp_href]) := by
  induction rs generalizing i with
  | nil => exact absurd hi (by simp)
  | cons r rest ih =>
    cases i with
    | zero =>
      simp only [List.get] at hok
      simp [gen_cleanup_loop, hok]
    | succ k =>
      have hr : except_ok (read r) = false := by
        have := hbefore 0 (by simp) (Nat.succ_pos k)
        simpa [List.get] using this
      cases hcase : read r with
      | ok other => rw [hcase] at hr; simp [except_ok] at hr
      | error e =>
        simp only [gen_cleanup_loop, hcase]
        refine ih k (by simpa using hi) ?_ ?_
        · intro j hj hjk
          have := hbefore (j + 1) (by simpa using hj) (by omega)
          simpa [List.get] using this
        · simpa [List.get] using hok

/-- Claim C4: when the creation call of `gen_object_with_cleanup` returns a
task (the created value has no `pulp_href`), the task is awaited and its
`created_resources` are read in order through the same client: if some
resource is the first whose read succeeds, the object it yields is
registered for cleanup and returned; if no created resource is readable,
the call fails with the descriptive error naming the task data. -/
theorem gen_object_with_cleanup_task_spec
    (read : String → Except Unit PulpObject) (monitor : String → TaskData)
    (task_href : String) :
    (∀ i, (hi : i < (monitor task_href).created_resources.length) →
      (∀ j, (hj : j < (monitor task_href).created_resources.length) → j < i →
        except_ok (read ((monitor task_href).created_resources.get ⟨j, hj⟩)) =
          false) →
      ∀ new_obj,
        read ((monitor task_href).created_resources.get ⟨i, hi⟩) =
          Except.ok new_obj →
        gen_object_with_cleanup read monitor (CreatedValue.task task_href) =
          Except.ok (new_obj, [new_obj.pulp_href])) ∧
    ((∀ r ∈ (monitor task_href).created_resources,
        except_ok (read r) = false) →
      gen_object_with_cleanup read monitor (CreatedValue.task task_href) =
        Except.error
          ("No appropriate created_resource could be found in task data " ++
            task_data_str (monitor task_href))) := by
  constructor
  · intro i hi hbefore new_obj hok
    simp only [gen_object_with_cleanup]
    exact gen_cleanup_loop_first_readable read (monitor task_href)
      (monitor task_href).created_resources i hi hbefore new_obj hok
  · intro h
    simp only [gen_object_with_cleanup]
    exact gen_cleanup_loop_all_fail read (monitor task_href)
      (monitor task_href).created_resources h

/-- Witness for claim C4: under the sample oracles the second created
resource is the first readable one and is returned and registered; under
the all-unreadable monitor the call fails with the descriptive error. -/
theorem gen_object_with_cleanup_task_spec_witness :
    gen_object_with_cleanup sample_read sample_monitor
        (CreatedValue.task "/tasks/1/") =
      Except.ok ({ pulp_href := "/res/good/" }, ["/res/good/"]) ∧
    gen_object_with_cleanup sample_read sample_monitor_bad
        (CreatedValue.task "/tasks/1/") =
      Except.error
        ("No appropriate created_resource could be found in task data " ++
          task_data_str (sample_monitor_bad "/tasks/1/")) :=
  ⟨(gen_object_with_cleanup_task_spec sample_read sample_monitor
      "/tasks/1/").1 1 (by decide) (by decide) { pulp_href := "/res/good/" }
      rfl,
   (gen_object_with_cleanup_task_spec sample_read sample_monitor_bad
      "/tasks/1/").2 (by decide)⟩

/-- One unrolling of the start polling loop. -/
theorem start_check_loop_step
    (poll : Nat → Except StatusReadError (StatusInfo × Nat))
    (attempt remaining : Nat) :
    start_check_loop poll attempt (remaining + 1) =
      if poll_ready poll attempt then
        (true, [ServiceEvent.sleep 3, ServiceEvent.status_read attempt])
      else
        ((start_check_loop poll (attempt + 1) remaining).1,
          ServiceEvent.sleep 3 :: ServiceEvent.status_read attempt ::
            (start_check_loop poll (attempt + 1) remaining).2) := by
  cases hp : poll attempt with
  | error e => simp [start_check_loop, poll_ready, hp]
  | ok sc =>
    obtain ⟨status, http_code⟩ := sc
    by_cases hr : start_ready status http_code <;>
      simp [start_check_loop, poll_ready, hp, hr]

/-- The start poller returns `True` exactly when some attempt within the
budget reads a ready status. -/
theorem start_check_loop_true_iff
    (poll : Nat → Except StatusReadError (StatusInfo × Nat))
    (remaining : Nat) :
    ∀ attempt, ((start_check_loop poll attempt remaining).1 = true ↔
      ∃ k, k < remaining ∧ poll_ready poll (attempt + k) = true) := by
  induction remaining with
  | zero => intro attempt; simp [start_check_loop]
  | succ remaining ih =>
    intro attempt
    rw [start_check_loop_step]
    by_cases hr : poll_ready poll attempt
    · rw [if_pos hr]
      simp only [true_iff]
      exact ⟨0, Nat.succ_pos _, by simpa using hr⟩
    · rw [if_neg hr]
      have hfst :
          (((start_check_loop poll (attempt + 1) remaining).1,
            ServiceEvent.sleep 3 :: ServiceEvent.status_read attempt ::
              (start_check_loop poll (attempt + 1) remaining).2)).1 =
            (start_check_loop poll (attempt + 1) remaining).1 := rfl
      rw [hfst, ih (attempt + 1)]
      constructor
      · rintro ⟨k, hk, hready⟩
        refine ⟨k + 1, by omega, ?_⟩
        rwa [show attempt + (k + 1) = attempt + 1 + k by omega]
      · rintro ⟨k, hk, hready⟩
        cases k with
        | zero =>
          rw [Nat.add_zero] at hready
          exact absurd hready hr
        | succ k =>
          refine ⟨k, by omega, ?_⟩
          rwa [show attempt + 1 + k = attempt + (k + 1) by omega]

/-- When no attempt within the budget reads a ready status, the start
poller runs all its iterations and returns `False` with the full trace. -/
theorem start_check_loop_not_ready
    (poll : Nat → Except StatusReadError (StatusInfo × Nat))
    (remaining : Nat) :
    ∀ attempt, (∀ k, k < remaining → poll_ready poll (attempt + k) = false) →
      start_check_loop poll attempt remaining =
        (false, full_poll_trace attempt remaining) := by
  induction remaining with
  | zero => intro attempt _; rfl
  | succ remaining ih =>
    intro attempt h
    rw [start_check_loop_step]
    have h0 : poll_ready poll attempt = false := by
      simpa using h 0 (Nat.succ_pos _)
    rw [if_neg (by simp [h0])]
    rw [ih (attempt + 1) (fun k hk => by
      have := h (k + 1) (by omega)
      rwa [show attempt + (k + 1) = attempt + 1 + k by omega] at this)]
    simp [full_poll_trace]

/-- Every polling iteration performs exactly one status read: the trace of
`remaining` iterations holds `remaining` reads. -/
theorem full_poll_trace_read_count (remaining : Nat) :
    ∀ attempt, (full_poll_trace attempt remaining).countP is_read_event =
      remaining := by
  induction remaining with
  | zero => intro attempt; rfl
  | succ remaining ih =>
    intro attempt
    simp [full_poll_trace, List.countP_cons, is_read_event, ih (attempt + 1)]

/-- Claim C5: `start_and_check_services` returns `True` exactly when, within
10 polling attempts each preceded by a 3-second sleep, some status read
simultaneously yields HTTP 200, at least one online worker, at least one
online content app and a connected database; when the condition is never
met it returns `False` after exactly 10 attempts.  The function is total on
every poll oracle (reads that raise the caught exceptions are absorbed by
the loop), so it never throws. -/
theorem start_and_check_services_spec
    (poll : Nat → Except StatusReadError (StatusInfo × Nat)) :
    ((start_and_check_services poll).1 = true ↔
      ∃ i, i < 10 ∧ poll_ready poll i = true) ∧
    ((start_and_check_services poll).1 = false →
      start_and_check_services poll = (false, full_poll_trace 0 10) ∧
        (start_and_check_services poll).2.countP is_read_event = 10) := by
  constructor
  · simpa using start_check_loop_true_iff poll 10 0
  · intro hfalse
    have hne : ¬ ∃ k, k < 10 ∧ poll_ready poll k = true := by
      intro hcon
      have := (start_check_loop_true_iff poll 10 0).mpr (by simpa using hcon)
      simp only [start_and_check_services] at hfalse
      rw [this] at hfalse
      exact Bool.true_eq_false.mp hfalse
    have hall : ∀ k, k < 10 → poll_ready poll (0 + k) = false := by
      intro k hk
      cases hv : poll_ready poll (0 + k)
      · rfl
      · exact absurd ⟨k, hk, by simpa using hv⟩ hne
    have heq := start_check_loop_not_ready poll 10 0 hall
    simp only [start_and_check_services]
    rw [heq]
    exact ⟨rfl, full_poll_trace_read_count 10 0⟩

/-- Witness for claim C5: under a poll oracle whose reads always raise a
connection failure, the poller returns `False` after exactly 10 attempts. -/
theorem start_and_check_services_spec_witness :
    start_and_check_services poll_never_up = (false, full_poll_trace 0 10) ∧
      (start_and_check_services poll_never_up).2.countP is_read_event = 10 :=
  (start_and_check_services_spec poll_never_up).2 rfl

/-- One unrolling of the stop polling loop. -/
theorem stop_check_loop_step (poll : Nat → Except StatusReadError Unit)
    (attempt remaining : Nat) :
    stop_check_loop poll attempt (remaining + 1) =
      if except_ok (poll attempt) = false then
        (true, [ServiceEvent.sleep 3, ServiceEvent.status_read attempt])
      else
        ((stop_check_loop poll (attempt + 1) remaining).1,
          ServiceEvent.sleep 3 :: ServiceEvent.status_read attempt ::
            (stop_check_loop poll (attempt + 1) remaining).2) := by
  cases hp : poll attempt with
  | error e => simp [stop_check_loop, except_ok, hp]
  | ok u => simp [stop_check_loop, except_ok, hp]

/-- When every status read within the budget succeeds, the stop poller runs
all its iterations and returns `False` with the full trace. -/
theorem stop_check_loop_all_ok (poll : Nat → Except StatusReadError Unit)
    (remaining : Nat) :
    ∀ attempt, (∀ k, k < remaining → poll (attempt + k) = Except.ok ()) →
      stop_check_loop poll attempt remaining =
        (false, full_poll_trace attempt remaining) := by
  induction remaining with
  | zero => intro attempt _; rfl
  | succ remaining ih =>
    intro attempt h
    rw [stop_check_loop_step]
    have h0 : poll attempt = Except.ok () := by
      simpa using h 0 (Nat.succ_pos _)
    rw [if_neg (by simp [h0, except_ok])]
    rw [ih (attempt + 1) (fun k hk => by
      have := h (k + 1) (by omega)
      rwa [show attempt + (k + 1) = attempt + 1 + k by omega] at this)]
    simp [full_poll_trace]

/-- When the reads of the first `k` attempts succeed and the read of
attempt `k` raises a caught exception, the stop poller returns `True` right
there, after exactly `k + 1` iterations. -/
theorem stop_check_loop_first_err (poll : Nat → Except StatusReadError Unit)
    (k : Nat) :
    ∀ remaining attempt, k < remaining →
      (∀ j, j < k → poll (attempt + j) = Except.ok ()) →
      except_ok (poll (attempt + k)) = false →
      stop_check_loop poll attempt remaining =
        (true, full_poll_trace attempt (k + 1)) := by
  induction k with
  | zero =>
    intro remaining attempt hk hok herr
    cases remaining with
    | zero => omega
    | succ remaining =>
      rw [stop_check_loop_step, if_pos (by simpa using herr)]
      simp [full_poll_trace]
  | succ k ih =>
    intro remaining attempt hk hok herr
    cases remaining with
    | zero => omega
    | succ remaining =>
      rw [stop_check_loop_step]
      have h0 : poll attempt = Except.ok () := by
        simpa using hok 0 (Nat.succ_pos _)
      rw [if_neg (by simp [h0, except_ok])]
      rw [ih remaining (attempt + 1) (by omega)
        (fun j hj => by
          have := hok (j + 1) (by omega)
          rwa [show attempt + (j + 1) = attempt + 1 + j by omega] at this)
        (by
          have := herr
          rwa [show attempt + (k + 1) = attempt + 1 + k by omega] at this)]
      simp [full_poll_trace]

/-- Claim C6: `stop_and_check_services` returns `True` as soon as an
attempt's status read fails with one of the caught exceptions (connection
failure or the specific API error), having performed one 3-second sleep and
one read per attempt up to that point; when every read succeeds it returns
`False` after exactly 10 attempts at 3-second spacing, and it is total on
every poll oracle, so it never throws. -/
theorem stop_and_check_services_spec
    (poll : Nat → Except StatusReadError Unit) :
    ((∀ i, i < 10 → poll i = Except.ok ()) →
      stop_and_check_services poll = (false, full_poll_trace 0 10) ∧
        (stop_and_check_services poll).2.countP is_read_event = 10) ∧
    (∀ i, i < 10 → (∀ j, j < i → poll j = Except.ok ()) →
      except_ok (poll i) = false →
      stop_and_check_services poll = (true, full_poll_trace 0 (i + 1)) ∧
        (stop_and_check_services poll).2.countP is_read_event = i + 1) := by
  constructor
  · intro h
    have heq := stop_check_loop_all_ok poll 10 0
      (fun k hk => by simpa using h k hk)
    simp only [stop_and_check_services]
    rw [heq]
    exact ⟨rfl, full_poll_trace_read_count 10 0⟩
  · intro i hi hok herr
    have heq := stop_check_loop_first_err poll i 10 0 hi
      (fun j hj => by simpa using hok j (by omega))
      (by simpa using herr)
    simp only [stop_and_check_services]
    rw [heq]
    exact ⟨rfl, full_poll_trace_read_count (i + 1) 0⟩

/-- Witness for claim C6: under an always-answering oracle the stop poller
returns `False` after 10 attempts; under an oracle that starts failing at
attempt 3 it returns `True` after 4 attempts. -/
theorem stop_and_check_services_spec_witness :
    (stop_and_check_services poll_never_down =
        (false, full_poll_trace 0 10) ∧
      (stop_and_check_services poll_never_down).2.countP is_read_event = 10) ∧
    (stop_and_check_services poll_down_at_three =
        (true, full_poll_trace 0 (3 + 1)) ∧
      (stop_and_check_services poll_down_at_three).2.countP is_read_event =
        3 + 1) :=
  ⟨(stop_and_check_services_spec poll_never_down).1 (fun i hi => rfl),
   (stop_and_check_services_spec poll_down_at_three).2 3 (by omega)
     (fun j hj => by simp [poll_down_at_three, hj]) rfl⟩

theorem filterMap_set_target_map_set (l : List Nat) :
    (l.map ServerTeardownEvent.set_shutdown_event).filterMap
      set_event_target = l := by
  induction l with
  | nil => rfl
  | cons server rest ih => simp [List.filterMap_cons, set_event_target, ih]

theorem filterMap_set_target_map_join (l : List Nat) :
    (l.map ServerTeardownEvent.join_thread).filterMap set_event_target =
      [] := by
  induction l with
  | nil => rfl
  | cons server rest ih => simp [List.filterMap_cons, set_event_target, ih]

theorem filterMap_join_target_map_set (l : List Nat) :
    (l.map ServerTeardownEvent.set_shutdown_event).filterMap join_target =
      [] := by
  induction l with
  | nil => rfl
  | cons server rest ih => simp [List.filterMap_cons, join_target, ih]

theorem filterMap_join_target_map_join (l : List Nat) :
    (l.map ServerTeardownEvent.join_thread).filterMap join_target = l := by
  induction l with
  | nil => rfl
  | cons server rest ih => simp [List.filterMap_cons, join_target, ih]

/-- Any position at or past the first block of a trace of the form
`prefix-block ++ joins` holds a join event, never a set event. -/
theorem get_append_right_map_join (a : List ServerTeardownEvent)
    (l : List Nat) (i : Nat)
    (hi : i < (a ++ l.map ServerTeardownEvent.join_thread).length)
    (h : a.length ≤ i) :
    is_set_event ((a ++ l.map ServerTeardownEvent.join_thread).get ⟨i, hi⟩) =
      false := by
  rw [List.get_eq_getElem, List.getElem_append_right h, List.getElem_map]
  rfl

/-- Any position inside the first block of a trace of the form
`sets ++ rest` holds a set event, never a join event. -/
theorem get_append_left_map_set (l : List Nat)
    (b : List ServerTeardownEvent) (j : Nat)
    (hj : j < (l.map ServerTeardownEvent.set_shutdown_event ++ b).length)
    (h : j < l.length) :
    is_join_event
      ((l.map ServerTeardownEvent.set_shutdown_event ++ b).get ⟨j, hj⟩) =
      false := by
  rw [List.get_eq_getElem, List.getElem_append_left (by simpa using h),
    List.getElem_map]
  rfl

/-- Claim C9: at fixture teardown the shutdown signal of every registered
server is set in registration order, then every server thread is joined in
registration order; in the teardown trace every signal-set event precedes
every join event, and every registered server has its thread joined before
the fixture scope exits. -/
theorem server_teardown_spec (fixture_servers_data : List Nat) :
    ((gen_threaded_aiohttp_server_teardown fixture_servers_data).filterMap
        set_event_target = fixture_servers_data) ∧
    ((gen_threaded_aiohttp_server_teardown fixture_servers_data).filterMap
        join_target = fixture_servers_data) ∧
    (∀ server, server ∈ fixture_servers_data →
      ServerTeardownEvent.join_thread server ∈
        gen_threaded_aiohttp_server_teardown fixture_servers_data) ∧
    (∀ i j,
      (hi : i < (gen_threaded_aiohttp_server_teardown
        fixture_servers_data).length) →
      (hj : j < (gen_threaded_aiohttp_server_teardown
        fixture_servers_data).length) →
      is_set_event ((gen_threaded_aiohttp_server_teardown
        fixture_servers_data).get ⟨i, hi⟩) = true →
      is_join_event ((gen_threaded_aiohttp_server_teardown
        fixture_servers_data).get ⟨j, hj⟩) = true →
      i < j) := by
  refine ⟨?_, ?_, ?_, ?_⟩
  · rw [gen_threaded_aiohttp_server_teardown, List.filterMap_append,
      filterMap_set_target_map_set, filterMap_set_target_map_join,
      List.append_nil]
  · rw [gen_threaded_aiohttp_server_teardown, List.filterMap_append,
      filterMap_join_target_map_set, filterMap_join_target_map_join,
      List.nil_append]
  · intro server hmem
    simp [gen_threaded_aiohttp_server_teardown, hmem]
  · intro i j hi hj hset hjoin
    have hi_lt : i < fixture_servers_data.length := by
      by_contra hcon
      push_neg at hcon
      have hfalse : is_set_event ((gen_threaded_aiohttp_server_teardown
          fixture_servers_data).get ⟨i, hi⟩) = false :=
        get_append_right_map_join
          (fixture_servers_data.map ServerTeardownEvent.set_shutdown_event)
          fixture_servers_data i hi (by simpa using hcon)
      exact absurd (hset.symm.trans hfalse) (by decide)
    have hj_ge : fixture_servers_data.length ≤ j := by
      by_contra hcon
      push_neg at hcon
      have hfalse : is_join_event ((gen_threaded_aiohttp_server_teardown
          fixture_servers_data).get ⟨j, hj⟩) = false :=
        get_append_left_map_set fixture_servers_data
          (fixture_servers_data.map ServerTeardownEvent.join_thread) j hj hcon
      exact absurd (hjoin.symm.trans hfalse) (by decide)
    omega

/-- Witness for claim C9 on the concrete registration list `[5, 9]`: server
5's thread is joined, and the set event at position 0 precedes the join
event at position 2. -/
theorem server_teardown_spec_witness :
    ServerTeardownEvent.join_thread 5 ∈
        gen_threaded_aiohttp_server_teardown [5, 9] ∧
      (0 : Nat) < 2 :=
  ⟨(server_teardown_spec [5, 9]).2.2.1 5 (by decide),
   (server_teardown_spec [5, 9]).2.2.2 0 2 (by decide) (by decide)
     (by decide) (by decide)⟩
